import Mathlib

/-!
Verification of the polynomial formatting, expansion and sampling core of
`app.py` (MathCraft: Twisted Curves).  Real numbers flowing through the app
(slider values, coefficients, sample points) are modelled as rationals.
-/

namespace TwistedCurves

/-- Concatenation of a list of strings with no separator, as Python's
string join on an empty separator. -/
def joinAll (l : List String) : String :=
  l.foldl (fun acc s => acc ++ s) ""

/-- Number of decimal digits of a natural number (one digit for zero). -/
def digitCount (n : ℕ) : ℕ := (Nat.toDigits 10 n).length

/-- Decides whether 10 ^ e ≤ p / d for naturals p and d, by clearing the
power of ten to whichever side keeps the exponent non-negative. -/
def tenPowLeRat (e : ℤ) (p d : ℕ) : Bool :=
  if 0 ≤ e then d * 10 ^ e.toNat ≤ p else d ≤ p * 10 ^ (-e).toNat

/-- Model of the Python format specifier `g` applied to a rational, in its
fixed-point regime: round the magnitude to 6 significant digits, print without
an exponent, and strip trailing fractional zeros, so integers print with no
decimal point.  The computation runs on the numerator and denominator: `e` is
the decimal exponent (the floor of log base 10 of the magnitude, found from
digit counts), and `n` is the magnitude scaled by 10 ^ (5 - e) and rounded
half up; a decimal point is then inserted 5 - e places from the right.  The
exponent regime of the specifier (magnitude at least 10^6, or positive but
below 10^-4) is unreachable from this app's bounded slider inputs and is not
modelled, and on decimal ties the specifier's round-to-even can differ, but no
tie arises at the app's input granularity. -/
def formatG (q : ℚ) : String :=
  if q = 0 then "0"
  else
    let sgn := if q < 0 then "-" else ""
    let p := q.num.natAbs
    let d := q.den
    let e0 : ℤ := (digitCount p : ℤ) - digitCount d
    let e : ℤ := if tenPowLeRat e0 p d then e0 else e0 - 1
    let k : ℤ := 5 - e
    let n : ℕ :=
      if 0 ≤ k then (2 * p * 10 ^ k.toNat + d) / (2 * d)
      else (2 * p + d * 10 ^ (-k).toNat) / (2 * (d * 10 ^ (-k).toNat))
    if k ≤ 0 then sgn ++ toString (n * 10 ^ (-k).toNat)
    else
      let shift := k.toNat
      let ds0 := (toString n).toList
      let ds := if ds0.length ≤ shift then List.replicate (shift + 1 - ds0.length) '0' ++ ds0 else ds0
      let ip := ds.take (ds.length - shift)
      let fp0 := ds.drop (ds.length - shift)
      let fp := (fp0.reverse.dropWhile (fun ch => ch = '0')).reverse
      if fp.isEmpty then sgn ++ String.mk ip
      else sgn ++ String.mk ip ++ "." ++ String.mk fp

/-- Embeds the helper `format_coefficient(coef, power, is_first)` of
`zeros_to_polynomial_string` in app.py, lines 36-66. -/
def format_coefficient (coef : ℚ) (power : ℕ) (is_first : Bool) : String :=
  if coef = 0 then ""
  else if power = 0 then
    if 0 < coef ∧ is_first = false then " + " ++ formatG coef
    else formatG coef
  else if power = 1 then
    let coef_str :=
      if coef = 1 then (if is_first then "" else " + ")
      else if coef = -1 then (if is_first then "-" else " - ")
      else if 0 < coef then (if is_first then formatG coef else " + " ++ formatG coef)
      else (if is_first then formatG coef else " - " ++ formatG |coef|)
    coef_str ++ "x"
  else
    let coef_str :=
      if coef = 1 then (if is_first then "" else " + ")
      else if coef = -1 then (if is_first then "-" else " - ")
      else if 0 < coef then (if is_first then formatG coef else " + " ++ formatG coef)
      else (if is_first then formatG coef else " - " ++ formatG |coef|)
    coef_str ++ "x^" ++ toString power

/-- Coefficient of x in the two-root branch of `zeros_to_polynomial_string`, line 72. -/
def coef2_x1 (a b : ℚ) : ℚ := -(a + b)

/-- Constant coefficient in the two-root branch, line 73. -/
def coef2_x0 (a b : ℚ) : ℚ := a * b

/-- Coefficient of x^2 in the three-root branch, line 88. -/
def coef3_x2 (a b c : ℚ) : ℚ := -(a + b + c)

/-- Coefficient of x in the three-root branch, line 89. -/
def coef3_x1 (a b c : ℚ) : ℚ := a * b + a * c + b * c

/-- Constant coefficient in the three-root branch, line 90. -/
def coef3_x0 (a b c : ℚ) : ℚ := -(a * b * c)

/-- One factor of the four-root factored branch, lines 106-112. -/
def factor_term (z : ℚ) : String :=
  if z = 0 then "x"
  else if 0 < z then "(x - " ++ formatG z ++ ")"
  else "(x + " ++ formatG |z| ++ ")"

/-- Embeds `zeros_to_polynomial_string(zeros)` of app.py, lines 33-115:
two and three roots expand through elementary symmetric functions and are
formatted term by term, four roots render in factored form, and every other
length returns the fallback string. -/
def zeros_to_polynomial_string : List ℚ → String
  | [a, b] =>
    let terms : List String :=
      format_coefficient 1 2 true
        :: ((if coef2_x1 a b ≠ 0 then [format_coefficient (coef2_x1 a b) 1 false] else [])
          ++ (if coef2_x0 a b ≠ 0 then [format_coefficient (coef2_x0 a b) 0 false] else []))
    if terms.any (fun s => s != "") then joinAll terms else "0"
  | [a, b, c] =>
    let terms : List String :=
      format_coefficient 1 3 true
        :: ((if coef3_x2 a b c ≠ 0 then [format_coefficient (coef3_x2 a b c) 2 false] else [])
          ++ (if coef3_x1 a b c ≠ 0 then [format_coefficient (coef3_x1 a b c) 1 false] else [])
          ++ (if coef3_x0 a b c ≠ 0 then [format_coefficient (coef3_x0 a b c) 0 false] else []))
    if terms.any (fun s => s != "") then joinAll terms else "0"
  | [z1, z2, z3, z4] => joinAll ([z1, z2, z3, z4].map factor_term)
  | _ => "f(x)"

/-- Embeds `format_polynomial_display(a, b, c, d)` of app.py, lines 189-248. -/
def format_polynomial_display (a b c d : ℚ) : String :=
  let terms : List String := []
  let terms :=
    if a ≠ 0 then
      terms ++ [if a = 1 then "x^3" else if a = -1 then "-x^3" else formatG a ++ "x^3"]
    else terms
  let terms :=
    if b ≠ 0 then
      if 0 < b ∧ terms ≠ [] then
        terms ++ [if b = 1 then " + x^2" else " + " ++ formatG b ++ "x^2"]
      else if b < 0 then
        terms ++ [if b = -1 then " - x^2" else " - " ++ formatG |b| ++ "x^2"]
      else
        terms ++ [if b = 1 then "x^2" else formatG b ++ "x^2"]
    else terms
  let terms :=
    if c ≠ 0 then
      if 0 < c ∧ terms ≠ [] then
        terms ++ [if c = 1 then " + x" else " + " ++ formatG c ++ "x"]
      else if c < 0 then
        terms ++ [if c = -1 then " - x" else " - " ++ formatG |c| ++ "x"]
      else
        terms ++ [if c = 1 then "x" else formatG c ++ "x"]
    else terms
  let terms :=
    if d ≠ 0 then
      if 0 < d ∧ terms ≠ [] then terms ++ [" + " ++ formatG d]
      else if d < 0 then terms ++ [" - " ++ formatG |d|]
      else terms ++ [formatG d]
    else terms
  if terms ≠ [] then joinAll terms else "0"

/-- Embeds numpy's linspace lo hi n with an inclusive endpoint: n evenly
spaced samples from lo to hi (a single sample sits at lo). -/
def linspace (lo hi : ℚ) (n : ℕ) : List ℚ :=
  if n = 1 then [lo]
  else (List.range n).map (fun i : ℕ => lo + (hi - lo) * (i : ℚ) / ((n : ℚ) - 1))

/-- The fixed sample grid of the app, line 138: 400 points over [-6, 6]. -/
def t_points : List ℚ := linspace (-6) 6 400

/-- Pointwise value of the roots-mode curve `f_t` built by the loop in
lines 139-141: start from one and multiply by (x - z) for each zero z. -/
def f_t_at (zeros : List ℚ) (x : ℚ) : ℚ :=
  zeros.foldl (fun acc z => acc * (x - z)) 1

/-- The roots-mode y-samples over a grid of x-samples, lines 139-141. -/
def sample_ys (zeros : List ℚ) (xs : List ℚ) : List ℚ :=
  xs.map (f_t_at zeros)

/-- Evaluation of a cubic from its four coefficients, highest power first. -/
def eval_cubic (c3 c2 c1 c0 x : ℚ) : ℚ :=
  c3 * x ^ 3 + c2 * x ^ 2 + c1 * x + c0

/-- Spec-side rendering of the four-root factored display, written from the
spec's words for comparison with the code's factored branch: each root z
renders as "x" when z is zero, "(x - z)" when z is positive and "(x + |z|)"
when z is negative, concatenated with no separator. -/
def factored_display_spec (zeros : List ℚ) : String :=
  joinAll (zeros.map (fun z =>
    if z = 0 then "x"
    else if 0 < z then "(x - " ++ formatG z ++ ")"
    else "(x + " ++ formatG |z| ++ ")"))

theorem joinAll_shift (l : List String) (x : String) :
    l.foldl (fun acc s => acc ++ s) x = x ++ joinAll l := by
  induction l generalizing x with
  | nil => simp [joinAll, String.append_empty]
  | cons hd tl ih =>
    simp only [List.foldl_cons, joinAll]
    rw [ih (x ++ hd), ih ("" ++ hd), String.empty_append, String.append_assoc]

theorem joinAll_cons (s : String) (l : List String) :
    joinAll (s :: l) = s ++ joinAll l := by
  simp only [joinAll, List.foldl_cons]
  rw [joinAll_shift l ("" ++ s), String.empty_append]
  rfl

theorem joinAll_data (s : String) (l : List String) :
    (joinAll (s :: l)).data = s.data ++ (joinAll l).data := by
  rw [joinAll_cons, String.data_append]

theorem display_if_data (s : String) (l : List String) (h : (s != "") = true) :
    (if ((s :: l).any fun t => t != "") = true then joinAll (s :: l) else "0").data
      = s.data ++ (joinAll l).data := by
  have hany : ((s :: l).any fun t => t != "") = true := by
    simp only [List.any_cons, h, Bool.true_or]
  rw [if_pos hany, joinAll_data]

theorem zeros_string_default (zs : List ℚ) (h2 : zs.length ≠ 2) (h3 : zs.length ≠ 3)
    (h4 : zs.length ≠ 4) : zeros_to_polynomial_string zs = "f(x)" := by
  match zs with
  | [] => rfl
  | [_] => rfl
  | [_, _] => exact absurd rfl h2
  | [_, _, _] => exact absurd rfl h3
  | [_, _, _, _] => exact absurd rfl h4
  | _ :: _ :: _ :: _ :: _ :: _ => rfl

theorem f_t_at_eq_prod (zeros : List ℚ) (x : ℚ) :
    f_t_at zeros x = (zeros.map (fun z => x - z)).prod := by
  suffices h : ∀ init : ℚ, zeros.foldl (fun acc z => acc * (x - z)) init
      = init * (zeros.map (fun z => x - z)).prod by
    simpa [f_t_at] using h 1
  induction zeros with
  | nil => intro init; simp
  | cons z zs ih =>
    intro init
    simp only [List.foldl_cons, List.map_cons, List.prod_cons, ih, mul_assoc]

theorem linspace_length (lo hi : ℚ) (n : ℕ) : (linspace lo hi n).length = n := by
  by_cases h : n = 1
  · subst h; rfl
  · simp only [linspace, if_neg h, List.length_map, List.length_range]

theorem linspace_pairwise (lo hi : ℚ) (n : ℕ) (hlt : lo < hi) :
    (linspace lo hi n).Pairwise (· < ·) := by
  by_cases h1 : n = 1
  · subst h1; simp [linspace]
  · rw [linspace, if_neg h1]
    by_cases h0 : n = 0
    · subst h0; simp
    · have hn : 2 ≤ n := by omega
      have hnq : (2:ℚ) ≤ (n:ℚ) := by exact_mod_cast hn
      have hn1 : (0:ℚ) < (n:ℚ) - 1 := by linarith
      have hd : (0:ℚ) < hi - lo := by linarith
      rw [List.pairwise_map]
      refine (List.pairwise_lt_range n).imp ?_
      intro i j hij
      have hijq : (i:ℚ) < (j:ℚ) := by exact_mod_cast hij
      have hmul : (hi - lo) * (i:ℚ) < (hi - lo) * (j:ℚ) := mul_lt_mul_of_pos_left hijq hd
      have hdiv : (hi - lo) * (i:ℚ) / ((n:ℚ) - 1) < (hi - lo) * (j:ℚ) / ((n:ℚ) - 1) :=
        div_lt_div_of_pos_right hmul hn1
      linarith

/-- C1: at roots (-2, 3) the two-root expansion renders as "x^2 - x-6": the
negative constant term is concatenated with no sign spacing, so the claimed
display "x^2 - x - 6" is not produced even though the coefficients are
[1, -1, -6] as claimed. -/
theorem two_root_display_at_neg_two_three :
    zeros_to_polynomial_string [-2, 3] = "x^2 - x-6" := by
  have h1 : coef2_x1 (-2) 3 = -1 := by norm_num [coef2_x1]
  have h0 : coef2_x0 (-2) 3 = -6 := by norm_num [coef2_x0]
  simp only [zeros_to_polynomial_string, h1, h0]
  decide

/-- C2: at coefficients (0, -1, 0, 0) the coefficient-vector display is
" - x^2", which begins with the spaced sign convention: the first emitted
term is not rendered as the bare "-x^2" the claim requires. -/
theorem first_negative_term_keeps_spaced_sign :
    format_polynomial_display 0 (-1) 0 0 = " - x^2" := by decide

/-- C3: the coefficient-vector formatter sends (1,0,0,0) to "x^3", the all
zero vector to "0", and (-1,0,1,0) to "-x^3 + x". -/
theorem coefficient_display_examples :
    format_polynomial_display 1 0 0 0 = "x^3" ∧
    format_polynomial_display 0 0 0 0 = "0" ∧
    format_polynomial_display (-1) 0 1 0 = "-x^3 + x" :=
  ⟨by decide, by decide, by decide⟩

/-- C4: for every four-element root set the display equals the spec's
factored rendering of the roots, and at roots (-2, 1, 3, 4) it is exactly
"(x + 2)(x - 1)(x - 3)(x - 4)". -/
theorem four_root_factored_display :
    (∀ z1 z2 z3 z4 : ℚ, zeros_to_polynomial_string [z1, z2, z3, z4]
        = factored_display_spec [z1, z2, z3, z4]) ∧
    zeros_to_polynomial_string [-2, 1, 3, 4] = "(x + 2)(x - 1)(x - 3)(x - 4)" :=
  ⟨fun _ _ _ _ => rfl, by decide⟩

/-- C5 counterexample: at a five-element root set the operation does not fail
with any error; it returns the fallback string "f(x)". -/
theorem invalid_length_no_error_counterexample :
    zeros_to_polynomial_string [0, 0, 0, 0, 0] = "f(x)" := rfl

/-- C5 amended: for every root-set input whose length is not in 2, 3, 4 the
root-to-polynomial operation does not fail; it totally returns the fallback
display string "f(x)", neither truncating nor padding the input. -/
theorem invalid_length_returns_fallback (zs : List ℚ)
    (h : ¬(zs.length = 2 ∨ zs.length = 3 ∨ zs.length = 4)) :
    zeros_to_polynomial_string zs = "f(x)" := by
  push_neg at h
  exact zeros_string_default zs h.1 h.2.1 h.2.2

/-- C5 witness: the amended fallback behaviour at the empty root set. -/
theorem invalid_length_returns_fallback_witness :
    zeros_to_polynomial_string [] = "f(x)" :=
  invalid_length_returns_fallback [] (by decide)

/-- C6: the cubic whose coefficients come from the three-root branch,
powers 3, 2, 1, 0, evaluates to zero at each of the three roots. -/
theorem three_root_expansion_vanishes_at_roots :
    ∀ a b c : ℚ,
      eval_cubic 1 (coef3_x2 a b c) (coef3_x1 a b c) (coef3_x0 a b c) a = 0 ∧
      eval_cubic 1 (coef3_x2 a b c) (coef3_x1 a b c) (coef3_x0 a b c) b = 0 ∧
      eval_cubic 1 (coef3_x2 a b c) (coef3_x1 a b c) (coef3_x0 a b c) c = 0 := by
  intro a b c
  refine ⟨?_, ?_, ?_⟩ <;>
    · simp only [eval_cubic, coef3_x2, coef3_x1, coef3_x0]
      ring

/-- C7: for any domain with xmin < xmax and any positive count the sample
grid is strictly ascending with exactly count elements, and the roots-mode
y-samples are the products of (x - root) at each grid point. -/
theorem sampler_monotone_count_and_product :
    (∀ (xmin xmax : ℚ) (n : ℕ), xmin < xmax → 0 < n →
      (linspace xmin xmax n).length = n ∧ (linspace xmin xmax n).Pairwise (· < ·)) ∧
    ∀ (zeros xs : List ℚ),
      sample_ys zeros xs = xs.map (fun x => (zeros.map (fun z => x - z)).prod) := by
  constructor
  · intro xmin xmax n hlt _hn
    exact ⟨linspace_length xmin xmax n, linspace_pairwise xmin xmax n hlt⟩
  · intro zeros xs
    simp only [sample_ys]
    congr 1
    funext x
    exact f_t_at_eq_prod zeros x

/-- C7 witness: the program's own grid of 400 points over [-6, 6] together
with the default roots (-2, 1, 3, 4). -/
theorem sampler_monotone_count_and_product_witness :
    (linspace (-6 : ℚ) 6 400).length = 400 ∧
    (linspace (-6 : ℚ) 6 400).Pairwise (· < ·) ∧
    sample_ys [-2, 1, 3, 4] t_points
      = t_points.map (fun x => (([-2, 1, 3, 4] : List ℚ).map (fun z => x - z)).prod) :=
  ⟨(sampler_monotone_count_and_product.1 (-6) 6 400 (by norm_num) (by norm_num)).1,
   (sampler_monotone_count_and_product.1 (-6) 6 400 (by norm_num) (by norm_num)).2,
   sampler_monotone_count_and_product.2 [-2, 1, 3, 4] t_points⟩

/-- C8: the repeated root set (2, 2) formats to "x^2 - 4x + 4", and any
four-element root set beginning with the repeated root 2 concatenates two
identical factors "(x - 2)" in the factored display. -/
theorem repeated_root_display :
    zeros_to_polynomial_string [2, 2] = "x^2 - 4x + 4" ∧
    ∀ z3 z4 : ℚ, zeros_to_polynomial_string [2, 2, z3, z4]
      = "(x - 2)(x - 2)" ++ (factor_term z3 ++ factor_term z4) := by
  constructor
  · have h1 : coef2_x1 2 2 = -4 := by norm_num [coef2_x1]
    have h0 : coef2_x0 2 2 = 4 := by norm_num [coef2_x0]
    simp only [zeros_to_polynomial_string, h1, h0]
    decide
  · intro z3 z4
    have h2 : factor_term 2 = "(x - 2)" := by decide
    show joinAll ([2, 2, z3, z4].map factor_term) = _
    simp only [List.map_cons, List.map_nil, h2]
    rw [joinAll_cons, joinAll_cons, joinAll_cons, joinAll_cons]
    simp only [joinAll, List.foldl_nil]
    rw [String.append_empty, ← String.append_assoc]
    rfl

/-- C9: for any root-set input whose length is not 2, 3 or 4 the formatter
does not raise: it totally returns the literal fallback string "f(x)". -/
theorem nonstandard_length_total_fallback (zs : List ℚ)
    (h2 : zs.length ≠ 2) (h3 : zs.length ≠ 3) (h4 : zs.length ≠ 4) :
    zeros_to_polynomial_string zs = "f(x)" :=
  zeros_string_default zs h2 h3 h4

/-- C9 witness: the fallback at a length-five root set. -/
theorem nonstandard_length_total_fallback_witness :
    zeros_to_polynomial_string [1, 2, 3, 4, 5] = "f(x)" :=
  nonstandard_length_total_fallback [1, 2, 3, 4, 5] (by decide) (by decide) (by decide)

/-- C10: for every two- or three-element root set the expanded display
begins with the monic leading term, its character data being x, caret, 2
(resp. 3) followed by the remaining rendered terms; hence it is never the
string "0" and never starts with a sign or a numeral. -/
theorem expanded_display_starts_monic :
    (∀ a b : ℚ, ∃ r : List Char,
      (zeros_to_polynomial_string [a, b]).data = 'x' :: '^' :: '2' :: r) ∧
    (∀ a b c : ℚ, ∃ r : List Char,
      (zeros_to_polynomial_string [a, b, c]).data = 'x' :: '^' :: '3' :: r) := by
  constructor
  · intro a b
    refine ⟨(joinAll ((if coef2_x1 a b ≠ 0 then [format_coefficient (coef2_x1 a b) 1 false] else [])
      ++ (if coef2_x0 a b ≠ 0 then [format_coefficient (coef2_x0 a b) 0 false] else []))).data, ?_⟩
    exact display_if_data "x^2" _ rfl
  · intro a b c
    refine ⟨(joinAll ((if coef3_x2 a b c ≠ 0 then [format_coefficient (coef3_x2 a b c) 2 false] else [])
      ++ (if coef3_x1 a b c ≠ 0 then [format_coefficient (coef3_x1 a b c) 1 false] else [])
      ++ (if coef3_x0 a b c ≠ 0 then [format_coefficient (coef3_x0 a b c) 0 false] else []))).data, ?_⟩
    exact display_if_data "x^3" _ rfl

end TwistedCurves
